import Mathlib

/-!
Verification development for the Flowgenix multi-agent claim-processing
workflow (backend/app/services/multi_agent_processor.py together with
agent_tools.py, validation.py and the state model in app/models).

The embedding is shallow and executable:

* Python `Dict[str, Any]` claim data is modelled by association lists of
  `PyVal` values (strings, rationals for ints/floats, nested dicts, None).
* Python's `in` substring test is `occursIn`, `str.startswith` is
  `startsWithS`; all tool result strings are built exactly as the
  source f-strings build them (wall-clock timestamps are supplied by the
  environment, and `duration_seconds` fields are 0 since elapsed time is
  not modelled).
* The external collaborators (the JSON claims store behind
  `DataHandler.get_all_claims` / `get_claim_by_id` and the fraud-scoring
  service `FraudDetectionService.analyze_fraud_risk`) are an explicit
  `Env` record, exactly the interface §6 of the specification assigns to
  them: a list of stored claims and a function from claim id to
  `(fraud_score, risk_factors)` (`none` when the claim id is unknown).
* Exceptions are modelled by `Except String`; the only raising points the
  stage bodies contain are the `claim_data[...]` key accesses and the
  `float(...)` conversion, exactly where the Python can raise.  Each
  stage's `try/except/finally` is reproduced, including the fact that an
  early `return` inside `try` still runs the `finally` block.
* LangGraph's fan-out (Intake feeding Eligibility/Clinical/Fraud, all
  feeding Adjudication) is executed in the specification's canonical
  sequential order Intake, Eligibility, Clinical, Fraud, Adjudication;
  the spec declares the three middle stages order-insensitive.
-/

namespace Flowgenix

/-- Python `str.__contains__` on char lists: `leadsWith n h` is
"`n` is an initial segment of `h`". -/
def leadsWith : List Char → List Char → Bool
  | [], _ => true
  | _ :: _, [] => false
  | a :: as, b :: bs => a == b && leadsWith as bs

/-- Substring scan on char lists. -/
def subScan (needle : List Char) : List Char → Bool
  | [] => leadsWith needle []
  | b :: bs => leadsWith needle (b :: bs) || subScan needle bs

/-- Python's `needle in hay` substring test. -/
def occursIn (needle hay : String) : Bool :=
  subScan needle.toList hay.toList

/-- Python `s.startswith(pre)`. -/
def startsWithS (s pre : String) : Bool :=
  leadsWith pre.toList s.toList

/-- Python `s.lower()`. -/
def toLowerS (s : String) : String :=
  String.mk (s.toList.map Char.toLower)

/-- Python `s.strip()` (whitespace from both ends). -/
def trimS (s : String) : String :=
  String.mk (((s.toList.dropWhile Char.isWhitespace).reverse.dropWhile
    Char.isWhitespace).reverse)

/-- Model of the Python values stored in a claim-data mapping: strings,
numbers (ints and floats are both modelled by rationals), nested dicts
and `None`. -/
inductive PyVal where
  | vStr : String → PyVal
  | vNum : Rat → PyVal
  | vDict : List (String × PyVal) → PyVal
  | vNone : PyVal
deriving Repr

/-- Python truthiness of a value (`bool(v)`). -/
def pyTruthy : PyVal → Bool
  | .vStr s => !(s == "")
  | .vNum q => if q = 0 then false else true
  | .vDict d => !d.isEmpty
  | .vNone => false

/-- `d.get(k)` returning `none` when the key is absent (Python `dict.get`). -/
def pLookup (d : List (String × PyVal)) (k : String) : Option PyVal :=
  (d.find? (fun p => p.1 == k)).map (fun p => p.2)

/-- `d.get(k)` collapsed to a value, with `None` for a missing key. -/
def pGetD (d : List (String × PyVal)) (k : String) : PyVal :=
  (pLookup d k).getD PyVal.vNone

/-- The text of `str(KeyError(k))`: the key surrounded by single quotes. -/
def keyErr (k : String) : String := "\x27" ++ k ++ "\x27"

/-- `str(b)` for a Python bool. -/
def pyBool (b : Bool) : String := if b then "True" else "False"

/-- `str(x)` where `x` is `None` or a bool (the adjudication analysis line). -/
def pyOptBool : Option Bool → String
  | none => "None"
  | some b => pyBool b

/-- Floor of a non-negative rational as a natural number. -/
def ratFloorNat (q : Rat) : Nat := (q.num / (q.den : Int)).toNat

/-- Two-digit zero-padded decimal. -/
def pad2 (n : Nat) : String := if n < 10 then "0" ++ toString n else toString n

/-- Insert a comma after every third digit; the input is the reversed
digit list and the output is reversed as well. -/
def group3 : Nat → List Char → List Char
  | _, [] => []
  | k, c :: cs => if k == 0 then ',' :: c :: group3 2 cs else c :: group3 (k - 1) cs

/-- Python `"{:,}".format` thousands grouping of a digit string. -/
def groupThousands (s : String) : String :=
  String.mk (group3 3 s.toList.reverse).reverse

/-- Python `f"{q:,.2f}"`: two decimals, comma-grouped integer part.
(Ties are rounded up rather than to even; no tie appears in this model.) -/
def fmtComma2 (q : Rat) : String :=
  let a := if q < 0 then -q else q
  let n := ratFloorNat (a * 100 + 1 / 2)
  (if q < 0 then "-" else "") ++ groupThousands (toString (n / 100)) ++ "." ++ pad2 (n % 100)

/-- Python `f"{q:.1f}"`: one decimal digit, no grouping. -/
def fmt1 (q : Rat) : String :=
  let a := if q < 0 then -q else q
  let n := ratFloorNat (a * 10 + 1 / 2)
  (if q < 0 then "-" else "") ++ toString (n / 10) ++ "." ++ toString (n % 10)

/-- Python `repr` of a list of strings (used for the duplicate-claim-id
list interpolated into the `DUPLICATE_FOUND` message). -/
def pyListRepr (xs : List String) : String :=
  "[" ++ String.intercalate ", " (xs.map (fun s => "\x27" ++ s ++ "\x27")) ++ "]"

/-- Python `repr` of a `{category: count}` dict (the `extract_entities`
summary). -/
def pyDictRepr (xs : List (String × Nat)) : String :=
  "\x7b" ++
    String.intercalate ", " (xs.map (fun p => "\x27" ++ p.1 ++ "\x27: " ++ toString p.2)) ++
  "\x7d"

/-- Digit-list to number, `none` on the empty list. -/
def digitsVal : List Char → Option Nat
  | [] => none
  | cs => some (cs.foldl (fun acc c => acc * 10 + (c.toNat - 48)) 0)

/-- Parser for the plain decimal forms accepted by Python `float(str)`:
optional sign, digits, optional fractional part.  (Exponent, `inf`, `nan`
and underscore forms are not modelled; no such literal appears in claim
data.) -/
def parseFloat (s : String) : Option Rat :=
  let cs := (trimS s).toList
  let (neg, cs) :=
    match cs with
    | '-' :: rest => (true, rest)
    | '+' :: rest => (false, rest)
    | _ => (false, cs)
  let (intcs, rest) := cs.span Char.isDigit
  let mag : Option Rat :=
    match rest with
    | [] => (digitsVal intcs).map (fun n => (n : Rat))
    | '.' :: rest2 =>
      let (frcs, rest3) := rest2.span Char.isDigit
      if rest3.isEmpty && !(intcs.isEmpty && frcs.isEmpty) then
        some (((digitsVal intcs).getD 0 : Rat) +
          ((digitsVal frcs).getD 0 : Rat) / ((10 : Rat) ^ frcs.length))
      else none
    | _ => none
  mag.map (fun m => if neg then -m else m)

/-- Python `float(v)`, raising (as `Except.error` carrying `str(e)`) on
values that cannot be converted. -/
def pyFloat : PyVal → Except String Rat
  | .vNum q => .ok q
  | .vStr s =>
    match parseFloat s with
    | some q => .ok q
    | none => .error ("could not convert string to float: \x27" ++ s ++ "\x27")
  | .vNone => .error "float() argument must be a string or a real number, not \x27NoneType\x27"
  | .vDict _ => .error "float() argument must be a string or a real number, not \x27dict\x27"

/-- `str(v)` as used for `str(state.claim_data["service_date"])` (service
dates are ISO strings in this model; the numeric branch approximates
Python float repr and is never hit by a realistic claim). -/
def pyStr : PyVal → String
  | .vStr s => s
  | .vNum q => if q.den == 1 then toString q.num else fmtComma2 q
  | .vNone => "None"
  | .vDict _ => "\x7b...\x7d"

/-! ## State model (app/models/__init__.py) -/

/-- `AgentStatus` enum. -/
inductive AgentStatus where
  | PENDING | IN_PROGRESS | COMPLETED | FAILED
deriving Repr, DecidableEq

/-- `DecisionType` enum. -/
inductive DecisionType where
  | APPROVE | DENY | REVIEW
deriving Repr, DecidableEq

/-- `ReasoningStep` (the `timestamp` field is wall clock and not modelled). -/
structure ReasoningStep where
  step : Nat
  type : String
  text : String
deriving Repr, DecidableEq

/-- `ToolUsage` (the `timestamp` field is wall clock and not modelled). -/
structure ToolUsage where
  tool_name : String
  parameters : List (String × PyVal)
  result : String
  success : Bool
deriving Repr

/-- `AgentReport` (`timestamp` not modelled; `duration_seconds` is always 0
because elapsed wall-clock time is not modelled). -/
structure AgentReport where
  agent_name : String
  status : AgentStatus
  duration_seconds : Rat
  tools_used : List ToolUsage
  reasoning_steps : List ReasoningStep
  result : String
  confidence_score : Option Rat
deriving Repr

/-- The `eligibility_result` dict `{status, details}`. -/
structure EligRes where
  status : String
  details : String
deriving Repr, DecidableEq

/-- The `clinical_result` dict: either
`{status: "valid", icd_result, cpt_result, compatibility}` or
`{status: "invalid", issues}`. -/
inductive ClinRes where
  | valid (icd_result cpt_result compatibility : String)
  | invalid (issues : List String)
deriving Repr, DecidableEq

/-- The `fraud_result` dict `{risk_level, details, query_result, flagged}`. -/
structure FraudRes where
  risk_level : String
  details : String
  query_result : String
  flagged : Bool
deriving Repr, DecidableEq

/-- `ClaimState`: the shared state that flows through all agents. -/
structure ClaimState where
  claim_id : String
  claim_data : List (String × PyVal)
  intake_completed : Bool := false
  eligibility_verified : Bool := false
  codes_validated : Bool := false
  fraud_checked : Bool := false
  adjudication_completed : Bool := false
  eligibility_result : Option EligRes := none
  clinical_result : Option ClinRes := none
  fraud_result : Option FraudRes := none
  agent_reports : List AgentReport := []
  final_decision : Option DecisionType := none
  reasoning : String := ""
  confidence_score : Rat := 0
deriving Repr

/-! ## External collaborators (spec §6): the claims store and the
fraud-scoring service -/

/-- A stored claim as seen through `DataHandler.get_all_claims` — only the
fields `query_claims_database` reads.  `service_date` is the
`date.isoformat()` string; `created_at_day` abstracts `created_at` to a
day number compared against `Env.nowDay`. -/
structure DBClaim where
  claim_id : String
  patient_id : String
  procedure_code : String
  service_date : String
  claim_amount : Rat
  created_at_day : Nat
deriving Repr

/-- The environment of external collaborators: the stored claims list, the
fraud-scoring service (`DataHandler.get_claim_by_id` composed with
`FraudDetectionService.analyze_fraud_risk`, giving `none` when the claim
id is unknown and otherwise the normalised score with its risk factors),
and the wall clock (a day number for 30-day windows and an ISO timestamp
string for interpolation into tool messages). -/
structure Env where
  dbClaims : List DBClaim
  fraudAnalysis : String → Option (Rat × List String)
  nowDay : Nat
  nowIso : String

/-! ## Tools (app/services/agent_tools.py, with the code tables from
app/services/validation.py) -/

/-- The required-field list of `validate_required_fields`. -/
def required_fields : List String :=
  ["patient_name", "patient_id", "insurance_provider",
   "policy_number", "diagnosis_code", "procedure_code",
   "claim_amount", "service_date", "provider_name"]

/-- `validate_required_fields`: missing/empty fields first, then the
amount check.  A non-numeric `claim_amount` makes the `<= 0` comparison
raise `TypeError`, which the tool's own `except` turns into an
`ERROR:` string. -/
def validate_required_fields (claim_data : List (String × PyVal)) : String :=
  let missing_fields := required_fields.filter (fun f => !pyTruthy (pGetD claim_data f))
  if !missing_fields.isEmpty then
    "INVALID: Missing required fields: " ++ String.intercalate ", " missing_fields
  else
    match pLookup claim_data "claim_amount" with
    | some (.vNum q) =>
      if q ≤ 0 then "INVALID: Claim amount must be greater than zero"
      else "VALID: All required fields present and properly formatted"
    | some (.vStr _) =>
      "ERROR: Validation failed - \x27<=\x27 not supported between instances of \x27str\x27 and \x27int\x27"
    | some (.vDict _) =>
      "ERROR: Validation failed - \x27<=\x27 not supported between instances of \x27dict\x27 and \x27int\x27"
    | some .vNone =>
      "ERROR: Validation failed - \x27<=\x27 not supported between instances of \x27NoneType\x27 and \x27int\x27"
    | none =>
      -- unreachable: an absent claim_amount is reported as missing above
      "ERROR: Validation failed - \x27claim_amount\x27"

/-- The category table of `extract_entities`. -/
def entity_categories : List (String × List String) :=
  [("patient_info", ["patient_name", "patient_id"]),
   ("insurance_info", ["insurance_provider", "policy_number"]),
   ("medical_info", ["diagnosis_code", "procedure_code", "service_date"]),
   ("provider_info", ["provider_name", "provider_npi"]),
   ("financial_info", ["claim_amount"])]

/-- `extract_entities`: counts populated fields per category. -/
def extract_entities (claim_data : List (String × PyVal)) : String :=
  let extracted := entity_categories.map (fun p =>
    (p.1, (p.2.filter (fun f => pyTruthy (pGetD claim_data f))).length))
  let total_entities := (extracted.map (fun p => p.2)).foldl (· + ·) 0
  "EXTRACTED: " ++ toString total_entities ++ " entities across " ++
    toString extracted.length ++ " categories: " ++ pyDictRepr extracted

/-- `call_eligibility_api`: mock coverage lookup keyed on policy-number
patterns (the insurance-provider argument is unused, as in the source). -/
def call_eligibility_api (policy_number : String) (_insurance_provider : String) : String :=
  if startsWithS policy_number "POL-" then
    if occursIn "12345" policy_number then
      "ELIGIBLE: Coverage active, $20 copay, $500 deductible remaining, expires 2025-12-31"
    else if occursIn "67890" policy_number then
      "ELIGIBLE: Coverage active, $0 copay, $1000 deductible remaining, expires 2025-11-30"
    else if occursIn "99999" policy_number then
      "INELIGIBLE: Coverage expired on 2025-09-30"
    else
      "ELIGIBLE: Coverage active, $15 copay, $200 deductible remaining, expires 2025-12-31"
  else
    "ERROR: Invalid policy number format"

/-- `ValidationService.VALID_ICD10_CODES`. -/
def VALID_ICD10_CODES : List (String × String) :=
  [("Z00.00", "Encounter for general adult medical examination without abnormal findings"),
   ("S52.501A", "Unspecified fracture of the lower end of right radius, initial encounter"),
   ("M25.511", "Pain in right shoulder"),
   ("E11.9", "Type 2 diabetes mellitus without complications"),
   ("J06.9", "Acute upper respiratory infection, unspecified"),
   ("K21.9", "Gastro-esophageal reflux disease without esophagitis"),
   ("M79.3", "Panniculitis, unspecified"),
   ("I10", "Essential hypertension"),
   ("C50.1", "Malignant neoplasm of central portion of breast"),
   ("C50.2", "Malignant neoplasm of upper-inner quadrant of breast"),
   ("I21.0", "ST elevation (STEMI) myocardial infarction of anterior wall"),
   ("I63.1", "Cerebral infarction due to embolism of precerebral arteries"),
   ("I63.2", "Cerebral infarction due to unspecified occlusion of cerebral arteries")]

/-- `ValidationService.VALID_CPT_CODES`. -/
def VALID_CPT_CODES : List (String × String) :=
  [("99213", "Office visit, established patient, low complexity"),
   ("99214", "Office visit, established patient, moderate complexity"),
   ("99215", "Office visit, established patient, high complexity"),
   ("92004", "Ophthalmological examination and evaluation"),
   ("27447", "Arthroplasty, knee, condyle and plateau; medial or lateral compartment"),
   ("73721", "MRI lower extremity other than joint"),
   ("36415", "Collection of venous blood by venipuncture"),
   ("85025", "Blood count; complete (CBC), automated")]

/-- `ValidationService.COMPATIBLE_PROCEDURES`. -/
def COMPATIBLE_PROCEDURES : List (String × List String) :=
  [("Z00.00", ["99213", "99214", "99215"]),
   ("S52.501A", ["27447", "73721"]),
   ("M25.511", ["99213", "99214", "73721"]),
   ("E11.9", ["99213", "99214", "85025"]),
   ("J06.9", ["99213", "99214"]),
   ("K21.9", ["99213", "99214"]),
   ("M79.3", ["99213", "99214"]),
   ("I10", ["99213", "99214", "85025"]),
   ("C50.1", ["99215", "27447", "73721"]),
   ("C50.2", ["99215", "27447", "73721"]),
   ("I21.0", ["99215", "27447", "85025"]),
   ("I63.1", ["99215", "73721", "85025"]),
   ("I63.2", ["99215", "73721", "85025"])]

/-- `ValidationService.get_code_description`. -/
def get_code_description (code : String) (code_type : String) : String :=
  if toLowerS code_type == "icd10" then
    ((VALID_ICD10_CODES.find? (fun p => p.1 == code)).map (fun p => p.2)).getD
      "Unknown diagnosis code"
  else if toLowerS code_type == "cpt" then
    ((VALID_CPT_CODES.find? (fun p => p.1 == code)).map (fun p => p.2)).getD
      "Unknown procedure code"
  else "Unknown code"

/-- `lookup_icd10_code`. -/
def lookup_icd10_code (diagnosis_code : String) : String :=
  let description := get_code_description diagnosis_code "icd10"
  if description == "Unknown diagnosis code" then
    "INVALID: ICD-10 code " ++ diagnosis_code ++ " not found in database"
  else
    "VALID: " ++ diagnosis_code ++ " - " ++ description

/-- `lookup_cpt_code`. -/
def lookup_cpt_code (procedure_code : String) : String :=
  let description := get_code_description procedure_code "cpt"
  if description == "Unknown procedure code" then
    "INVALID: CPT code " ++ procedure_code ++ " not found in database"
  else
    "VALID: " ++ procedure_code ++ " - " ++ description

/-- `ValidationService._validate_procedure_diagnosis_match`. -/
def validate_procedure_diagnosis_match (diagnosis_code procedure_code : String) : Bool :=
  match COMPATIBLE_PROCEDURES.find? (fun p => p.1 == diagnosis_code) with
  | none => false
  | some p => p.2.contains procedure_code

/-- `check_code_compatibility`. -/
def check_code_compatibility (diagnosis_code procedure_code : String) : String :=
  if validate_procedure_diagnosis_match diagnosis_code procedure_code then
    "COMPATIBLE: Procedure " ++ procedure_code ++ " is appropriate for diagnosis " ++
      diagnosis_code
  else
    "INCOMPATIBLE: Procedure " ++ procedure_code ++ " does not match diagnosis " ++
      diagnosis_code

/-- `query_claims_database`: duplicate detection plus history summary over
the stored claims. -/
def query_claims_database (env : Env) (patient_id : String)
    (procedure_code service_date : Option String) : String :=
  let patient_claims := env.dbClaims.filter (fun c => c.patient_id == patient_id)
  if patient_claims.isEmpty then
    "NO_HISTORY: No previous claims found for patient " ++ patient_id
  else
    let dup : Option String :=
      match procedure_code with
      | none => none
      | some pc =>
        let procedure_claims := patient_claims.filter (fun c => c.procedure_code == pc)
        match service_date with
        | none => none
        | some sd =>
          let same_day_claims := procedure_claims.filter (fun c => c.service_date == sd)
          if !same_day_claims.isEmpty then
            some ("DUPLICATE_FOUND: Found identical claims on same date: " ++
              pyListRepr (same_day_claims.map (fun c => c.claim_id)))
          else none
    match dup with
    | some msg => msg
    | none =>
      let total_claims := patient_claims.length
      let total_amount := (patient_claims.map (fun c => c.claim_amount)).foldl (· + ·) 0
      let recent_claims := patient_claims.filter
        (fun c => env.nowDay - c.created_at_day ≤ 30)
      "HISTORY_FOUND: Patient has " ++ toString total_claims ++
        " previous claims, total amount $" ++ fmtComma2 total_amount ++ ", " ++
        toString recent_claims.length ++ " in last 30 days"

/-- `calculate_fraud_score`: bands the external fraud score and joins the
first three risk factors. -/
def calculate_fraud_score (env : Env) (claim_id : String) : String :=
  match env.fraudAnalysis claim_id with
  | none => "ERROR: Claim not found"
  | some fa =>
    let risk_level := if fa.1 > 70 then "HIGH" else if fa.1 > 30 then "MEDIUM" else "LOW"
    let factors_summary := String.intercalate "; " (fa.2.take 3)
    "FRAUD_SCORE: " ++ fmt1 fa.1 ++ "/100 (" ++ risk_level ++ " risk). Key factors: " ++
      factors_summary

/-- `flag_for_investigation`. -/
def flag_for_investigation (env : Env) (claim_id reason : String) : String :=
  "FLAGGED: Claim " ++ claim_id ++ " flagged for investigation at " ++ env.nowIso ++
    ". Reason: " ++ reason

/-- `request_human_review`. -/
def request_human_review (env : Env) (claim_id reason urgency : String) : String :=
  "ESCALATED: Claim " ++ claim_id ++ " escalated to human review at " ++ env.nowIso ++
    ". Reason: " ++ reason ++ ". Urgency: " ++ urgency

/-- `approve_claim`. -/
def approve_claim (env : Env) (claim_id : String) (amount : Rat) (reason : String) : String :=
  "APPROVED: Claim " ++ claim_id ++ " approved for $" ++ fmtComma2 amount ++ " at " ++
    env.nowIso ++ ". Reason: " ++ reason

/-- `deny_claim`. -/
def deny_claim (env : Env) (claim_id reason : String) : String :=
  "DENIED: Claim " ++ claim_id ++ " denied at " ++ env.nowIso ++ ". Reason: " ++ reason

/-- `check_prior_authorization`. -/
def check_prior_authorization (procedure_code diagnosis_code : String) : String :=
  let high_auth_procedures := ["27447", "73721"]
  if high_auth_procedures.contains procedure_code then
    "REQUIRED: Procedure " ++ procedure_code ++
      " requires prior authorization for diagnosis " ++ diagnosis_code
  else
    "NOT_REQUIRED: Procedure " ++ procedure_code ++ " does not require prior authorization"

/-- `verify_provider_credentials`. -/
def verify_provider_credentials (provider_name provider_npi : String) : String :=
  if provider_npi == "" || provider_npi.length != 10 then
    "INVALID: Provider NPI format invalid or missing"
  else if startsWithS provider_npi "123" || startsWithS provider_npi "987" then
    "VERIFIED: Provider " ++ provider_name ++ " (NPI: " ++ provider_npi ++
      ") is credentialed and in-network"
  else if startsWithS provider_npi "555" then
    "OUT_OF_NETWORK: Provider " ++ provider_name ++ " (NPI: " ++ provider_npi ++
      ") is out-of-network"
  else
    "VERIFIED: Provider " ++ provider_name ++ " (NPI: " ++ provider_npi ++
      ") is credentialed and in-network"

/-! ## Tool invocation (`MultiAgentProcessor._execute_tool`)

Each LangChain tool validates its structured arguments before running; a
missing or wrongly-typed argument makes `tool.invoke` raise, which
`_execute_tool` catches.  The adapters below model that argument layer
over the pure tool functions above. -/

/-- Extract a required string argument, raising on absence or wrong type
(the LangChain/pydantic argument validation). -/
def getStrArg (ps : List (String × PyVal)) (k : String) : Except String String :=
  match pLookup ps k with
  | some (.vStr s) => .ok s
  | some _ => .error ("validation error for argument " ++ k)
  | none => .error ("missing required argument " ++ k)

/-- Extract an optional string argument (`None` and absence both give
`none`, matching a `= None` default). -/
def getOptStrArg (ps : List (String × PyVal)) (k : String) : Except String (Option String) :=
  match pLookup ps k with
  | some (.vStr s) => .ok (some s)
  | some .vNone => .ok none
  | some _ => .error ("validation error for argument " ++ k)
  | none => .ok none

/-- Extract a required dict argument. -/
def getDictArg (ps : List (String × PyVal)) (k : String) :
    Except String (List (String × PyVal)) :=
  match pLookup ps k with
  | some (.vDict d) => .ok d
  | some _ => .error ("validation error for argument " ++ k)
  | none => .error ("missing required argument " ++ k)

/-- Extract a required numeric argument. -/
def getNumArg (ps : List (String × PyVal)) (k : String) : Except String Rat :=
  match pLookup ps k with
  | some (.vNum q) => .ok q
  | some _ => .error ("validation error for argument " ++ k)
  | none => .error ("missing required argument " ++ k)

/-- The tool registry in `ALL_TOOLS` order: each name mapped to an adapter
that validates its arguments and runs the tool body. -/
def toolAdapters : List (String × (Env → List (String × PyVal) → Except String String)) :=
  [("validate_required_fields", fun _ ps => do
      let d ← getDictArg ps "claim_data"
      pure (validate_required_fields d)),
   ("extract_entities", fun _ ps => do
      let d ← getDictArg ps "claim_data"
      pure (extract_entities d)),
   ("call_eligibility_api", fun _ ps => do
      let pn ← getStrArg ps "policy_number"
      let ip ← getStrArg ps "insurance_provider"
      pure (call_eligibility_api pn ip)),
   ("verify_provider_credentials", fun _ ps => do
      let pn ← getStrArg ps "provider_name"
      let npi ← getStrArg ps "provider_npi"
      pure (verify_provider_credentials pn npi)),
   ("lookup_icd10_code", fun _ ps => do
      let dc ← getStrArg ps "diagnosis_code"
      pure (lookup_icd10_code dc)),
   ("lookup_cpt_code", fun _ ps => do
      let pc ← getStrArg ps "procedure_code"
      pure (lookup_cpt_code pc)),
   ("check_code_compatibility", fun _ ps => do
      let dc ← getStrArg ps "diagnosis_code"
      let pc ← getStrArg ps "procedure_code"
      pure (check_code_compatibility dc pc)),
   ("check_prior_authorization", fun _ ps => do
      let pc ← getStrArg ps "procedure_code"
      let dc ← getStrArg ps "diagnosis_code"
      pure (check_prior_authorization pc dc)),
   ("query_claims_database", fun env ps => do
      let pid ← getStrArg ps "patient_id"
      let pc ← getOptStrArg ps "procedure_code"
      let sd ← getOptStrArg ps "service_date"
      pure (query_claims_database env pid pc sd)),
   ("calculate_fraud_score", fun env ps => do
      let cid ← getStrArg ps "claim_id"
      pure (calculate_fraud_score env cid)),
   ("flag_for_investigation", fun env ps => do
      let cid ← getStrArg ps "claim_id"
      let reason ← getStrArg ps "reason"
      pure (flag_for_investigation env cid reason)),
   ("approve_claim", fun env ps => do
      let cid ← getStrArg ps "claim_id"
      let amount ← getNumArg ps "amount"
      let reason ← getStrArg ps "reason"
      pure (approve_claim env cid amount reason)),
   ("deny_claim", fun env ps => do
      let cid ← getStrArg ps "claim_id"
      let reason ← getStrArg ps "reason"
      pure (deny_claim env cid reason)),
   ("request_human_review", fun env ps => do
      let cid ← getStrArg ps "claim_id"
      let reason ← getStrArg ps "reason"
      let urgency ← (match pLookup ps "urgency" with
        | some (.vStr u) => Except.ok u
        | some _ => Except.error "validation error for argument urgency"
        | none => Except.ok "normal")
      pure (request_human_review env cid reason urgency))]

/-- The `for tool in ALL_TOOLS: if tool.name == tool_name` lookup. -/
def lookupTool (name : String) :
    Option (Env → List (String × PyVal) → Except String String) :=
  (toolAdapters.find? (fun p => p.1 == name)).map (fun p => p.2)

/-- The outcome of looking a tool up and invoking it (`none` when the tool
name is unregistered). -/
def invokeTool (env : Env) (name : String) (params : List (String × PyVal)) :
    Option (Except String String) :=
  (lookupTool name).map (fun f => f env params)

/-- The record `_execute_tool` returns: the textual result plus the
`ToolUsage` audit entry. -/
structure ToolCallResult where
  result : String
  tool_usage : ToolUsage
deriving Repr

/-- `MultiAgentProcessor._execute_tool`: total — an unregistered name or a
raising tool is converted into a failed `ToolUsage`, never propagated. -/
def executeTool (env : Env) (name : String) (params : List (String × PyVal)) :
    ToolCallResult :=
  match invokeTool env name params with
  | none =>
    ⟨"ERROR: Tool " ++ name ++ " not found", ⟨name, params, "Tool not found", false⟩⟩
  | some (.ok r) => ⟨r, ⟨name, params, r, true⟩⟩
  | some (.error e) => ⟨"ERROR: " ++ e, ⟨name, params, "Error: " ++ e, false⟩⟩

/-! ## Stage functions (`MultiAgentProcessor._intake_agent` …
`_adjudication_agent`)

Each `_core` function computes the stage's own-field updates and the
report(s) it appends; the `_agent` wrapper applies them in a single state
update, mirroring that a stage only writes its own fields plus
`agent_reports`.  A stage whose precondition fails appends its report
twice: the early-`return` branch appends it and the `finally` block then
appends the same object again. -/

/-- The FAILED report of a short-circuited dependent stage. -/
def cannotProceedReport (name : String) : AgentReport :=
  ⟨name, .FAILED, 0, [], [], "❌ Cannot proceed - intake validation failed", none⟩

/-- The FAILED report produced by a stage's `except` handler:
confidence 0 and the stage error prefix followed by `str(e)`. -/
def exceptReport (name : String) (steps : List ReasoningStep) (uses : List ToolUsage)
    (errPre e : String) : AgentReport :=
  ⟨name, .FAILED, 0, uses, steps, errPre ++ e, some 0⟩

/-- `_intake_agent` body: validates fields and extracts entities, then
tests `"VALID" in validation_result["result"]`.  Returns the new
`intake_completed` flag and the appended report. -/
def intake_core (env : Env) (s : ClaimState) : Bool × List AgentReport :=
  let vr := executeTool env "validate_required_fields" [("claim_data", .vDict s.claim_data)]
  let er := executeTool env "extract_entities" [("claim_data", .vDict s.claim_data)]
  let steps : List ReasoningStep :=
    [⟨1, "REASON", "I need to validate the claim data structure and extract key entities"⟩,
     ⟨2, "ACT", "Calling validate_required_fields() to check data completeness"⟩,
     ⟨3, "OBSERVE", "Validation result: " ++ vr.result⟩,
     ⟨4, "ACT", "Calling extract_entities() to count and categorize claim data"⟩,
     ⟨5, "OBSERVE", "Entity extraction: " ++ er.result⟩]
  if occursIn "VALID" vr.result then
    (true,
     [⟨"Intake Agent", .COMPLETED, 0, [vr.tool_usage, er.tool_usage],
       steps ++ [⟨6, "COMPLETE", "Intake validation passed. Handing off to specialized agents."⟩],
       "✅ Claim data validated and entities extracted successfully", some 95⟩])
  else
    (s.intake_completed,
     [⟨"Intake Agent", .FAILED, 0, [vr.tool_usage, er.tool_usage], steps,
       "❌ Validation failed: " ++ vr.result, some 10⟩])

/-- `_intake_agent`. -/
def intake_agent (env : Env) (s : ClaimState) : ClaimState :=
  let t := intake_core env s
  { s with intake_completed := t.1, agent_reports := s.agent_reports ++ t.2 }

/-- Tail of the eligibility stage: the
`"ELIGIBLE" in eligibility_result["result"]` decision. -/
def elig_finish (s : ClaimState) (steps : List ReasoningStep) (uses : List ToolUsage)
    (eligText : String) : Bool × Option EligRes × List AgentReport :=
  if occursIn "ELIGIBLE" eligText then
    (true, some ⟨"eligible", eligText⟩,
     [⟨"Eligibility Agent", .COMPLETED, 0, uses,
       steps ++ [⟨6, "COMPLETE", "Eligibility verification completed successfully"⟩],
       "✅ Patient eligible, provider verified", some 90⟩])
  else
    (s.eligibility_verified, some ⟨"ineligible", eligText⟩,
     [⟨"Eligibility Agent", .COMPLETED, 0, uses, steps,
       "⚠️ Eligibility issue: " ++ eligText, some 30⟩])

/-- `_eligibility_agent` body: precondition check (with the double append
of the `finally` block after the early `return`), the eligibility API
call, the optional provider-credential call, then the decision.  The
`claim_data[...]` key accesses are the raising points the `except`
handler catches. -/
def elig_core (env : Env) (s : ClaimState) : Bool × Option EligRes × List AgentReport :=
  if !s.intake_completed then
    let r := cannotProceedReport "Eligibility Agent"
    (s.eligibility_verified, s.eligibility_result, [r, r])
  else
    let steps12 : List ReasoningStep :=
      [⟨1, "REASON", "I need to verify insurance eligibility and provider credentials"⟩,
       ⟨2, "ACT", "Calling call_eligibility_api() to verify coverage"⟩]
    let errPre := "❌ Eligibility check error: "
    match pLookup s.claim_data "policy_number" with
    | none =>
      (s.eligibility_verified, s.eligibility_result,
       [exceptReport "Eligibility Agent" steps12 [] errPre (keyErr "policy_number")])
    | some pn =>
      match pLookup s.claim_data "insurance_provider" with
      | none =>
        (s.eligibility_verified, s.eligibility_result,
         [exceptReport "Eligibility Agent" steps12 [] errPre (keyErr "insurance_provider")])
      | some ip =>
        let elig := executeTool env "call_eligibility_api"
          [("policy_number", pn), ("insurance_provider", ip)]
        let steps3 := steps12 ++ [⟨3, "OBSERVE", "Eligibility check: " ++ elig.result⟩]
        if pyTruthy (pGetD s.claim_data "provider_npi") then
          let steps4 := steps3 ++
            [⟨4, "ACT", "Calling verify_provider_credentials() to check provider"⟩]
          match pLookup s.claim_data "provider_name" with
          | none =>
            (s.eligibility_verified, s.eligibility_result,
             [exceptReport "Eligibility Agent" steps4 [elig.tool_usage] errPre
               (keyErr "provider_name")])
          | some pname =>
            let prov := executeTool env "verify_provider_credentials"
              [("provider_name", pname), ("provider_npi", pGetD s.claim_data "provider_npi")]
            elig_finish s
              (steps4 ++ [⟨5, "OBSERVE", "Provider verification: " ++ prov.result⟩])
              [elig.tool_usage, prov.tool_usage] elig.result
        else
          elig_finish s steps3 [elig.tool_usage] elig.result

/-- `_eligibility_agent`. -/
def eligibility_agent (env : Env) (s : ClaimState) : ClaimState :=
  let t := elig_core env s
  { s with eligibility_verified := t.1, eligibility_result := t.2.1,
           agent_reports := s.agent_reports ++ t.2.2 }

/-- `_clinical_agent` body: the two code lookups, the compatibility check,
then `codes_valid` via the three substring tests. -/
def clinical_core (env : Env) (s : ClaimState) : Bool × Option ClinRes × List AgentReport :=
  if !s.intake_completed then
    let r := cannotProceedReport "Clinical Review Agent"
    (s.codes_validated, s.clinical_result, [r, r])
  else
    let steps12 : List ReasoningStep :=
      [⟨1, "REASON", "I need to validate medical codes and check their compatibility"⟩,
       ⟨2, "ACT", "Calling lookup_icd10_code() to validate diagnosis"⟩]
    let errPre := "❌ Clinical review error: "
    match pLookup s.claim_data "diagnosis_code" with
    | none =>
      (s.codes_validated, s.clinical_result,
       [exceptReport "Clinical Review Agent" steps12 [] errPre (keyErr "diagnosis_code")])
    | some dv =>
      let icd := executeTool env "lookup_icd10_code" [("diagnosis_code", dv)]
      let steps4 := steps12 ++
        [⟨3, "OBSERVE", "ICD-10 validation: " ++ icd.result⟩,
         ⟨4, "ACT", "Calling lookup_cpt_code() to validate procedure"⟩]
      match pLookup s.claim_data "procedure_code" with
      | none =>
        (s.codes_validated, s.clinical_result,
         [exceptReport "Clinical Review Agent" steps4 [icd.tool_usage] errPre
           (keyErr "procedure_code")])
      | some pv =>
        let cpt := executeTool env "lookup_cpt_code" [("procedure_code", pv)]
        let compat := executeTool env "check_code_compatibility"
          [("diagnosis_code", dv), ("procedure_code", pv)]
        let steps7 := steps4 ++
          [⟨5, "OBSERVE", "CPT validation: " ++ cpt.result⟩,
           ⟨6, "ACT", "Calling check_code_compatibility() to verify codes match"⟩,
           ⟨7, "OBSERVE", "Compatibility check: " ++ compat.result⟩]
        let uses := [icd.tool_usage, cpt.tool_usage, compat.tool_usage]
        let codes_valid := occursIn "VALID" icd.result && occursIn "VALID" cpt.result &&
          occursIn "COMPATIBLE" compat.result
        if codes_valid then
          (true, some (.valid icd.result cpt.result compat.result),
           [⟨"Clinical Review Agent", .COMPLETED, 0, uses,
             steps7 ++ [⟨8, "COMPLETE", "Clinical review completed - codes are valid and compatible"⟩],
             "✅ Medical codes validated and compatible", some 95⟩])
        else
          (s.codes_validated, some (.invalid [icd.result, cpt.result, compat.result]),
           [⟨"Clinical Review Agent", .COMPLETED, 0, uses,
             steps7 ++ [⟨8, "COMPLETE", "Clinical review found code compatibility issues"⟩],
             "❌ Code validation issues detected", some 20⟩])

/-- `_clinical_agent`. -/
def clinical_agent (env : Env) (s : ClaimState) : ClaimState :=
  let t := clinical_core env s
  { s with codes_validated := t.1, clinical_result := t.2.1,
           agent_reports := s.agent_reports ++ t.2.2 }

/-- `_fraud_agent` body: history query, fraud score, and the
`"HIGH" in … or "DUPLICATE_FOUND" in …` risk decision, invoking the
flag-for-investigation tool when high. -/
def fraud_core (env : Env) (s : ClaimState) : Bool × Option FraudRes × List AgentReport :=
  if !s.intake_completed then
    let r := cannotProceedReport "Fraud Detection Agent"
    (s.fraud_checked, s.fraud_result, [r, r])
  else
    let steps12 : List ReasoningStep :=
      [⟨1, "REASON", "I need to check for fraud patterns and calculate risk score"⟩,
       ⟨2, "ACT", "Calling query_claims_database() to check for duplicates"⟩]
    let errPre := "❌ Fraud detection error: "
    match pLookup s.claim_data "patient_id" with
    | none =>
      (s.fraud_checked, s.fraud_result,
       [exceptReport "Fraud Detection Agent" steps12 [] errPre (keyErr "patient_id")])
    | some pid =>
      match pLookup s.claim_data "procedure_code" with
      | none =>
        (s.fraud_checked, s.fraud_result,
         [exceptReport "Fraud Detection Agent" steps12 [] errPre (keyErr "procedure_code")])
      | some pc =>
        match pLookup s.claim_data "service_date" with
        | none =>
          (s.fraud_checked, s.fraud_result,
           [exceptReport "Fraud Detection Agent" steps12 [] errPre (keyErr "service_date")])
        | some sd =>
          let q := executeTool env "query_claims_database"
            [("patient_id", pid), ("procedure_code", pc),
             ("service_date", .vStr (pyStr sd))]
          let f := executeTool env "calculate_fraud_score"
            [("claim_id", .vStr s.claim_id)]
          let steps5 := steps12 ++
            [⟨3, "OBSERVE", "Database query: " ++ q.result⟩,
             ⟨4, "ACT", "Calling calculate_fraud_score() to assess risk"⟩,
             ⟨5, "OBSERVE", "Fraud analysis: " ++ f.result⟩]
          let is_high_risk := occursIn "HIGH" f.result || occursIn "DUPLICATE_FOUND" q.result
          if is_high_risk then
            let fl := executeTool env "flag_for_investigation"
              [("claim_id", .vStr s.claim_id),
               ("reason", .vStr "High fraud score or duplicate detected")]
            (true, some ⟨"HIGH", f.result, q.result, true⟩,
             [⟨"Fraud Detection Agent", .COMPLETED, 0,
               [q.tool_usage, f.tool_usage, fl.tool_usage],
               steps5 ++
                 [⟨6, "REASON", "High fraud risk detected - flagging for investigation"⟩,
                  ⟨7, "ACT", "Calling flag_for_investigation() to mark claim"⟩,
                  ⟨8, "OBSERVE", "Flagging result: " ++ fl.result⟩,
                  ⟨9, "COMPLETE", "Fraud investigation initiated due to high risk"⟩],
               "🚨 High fraud risk - claim flagged", some 95⟩])
          else
            (true, some ⟨"LOW", f.result, q.result, false⟩,
             [⟨"Fraud Detection Agent", .COMPLETED, 0, [q.tool_usage, f.tool_usage],
               steps5 ++ [⟨6, "COMPLETE", "Fraud screening completed - low risk detected"⟩],
               "✅ Low fraud risk - passed screening", some 85⟩])

/-- `_fraud_agent`. -/
def fraud_agent (env : Env) (s : ClaimState) : ClaimState :=
  let t := fraud_core env s
  { s with fraud_checked := t.1, fraud_result := t.2.1,
           agent_reports := s.agent_reports ++ t.2.2 }

/-- `_adjudication_agent` body.  The successful outcome is the decision,
reason, confidence and the COMPLETED report; the error outcome carries
`str(e)` with the FAILED report.  The only raising point is
`float(state.claim_data["claim_amount"])` in the approval branch. -/
def adj_body (env : Env) (s : ClaimState) :
    Except (String × AgentReport) (DecisionType × String × Rat × AgentReport) :=
  let eligible_agents := s.agent_reports.filter (fun r =>
    r.agent_name == "Eligibility Agent" || r.agent_name == "Clinical Review Agent" ||
      r.agent_name == "Fraud Detection Agent")
  let eligibility_passed := s.eligibility_verified
  let codes_valid := s.codes_validated
  let fraud_flagged_opt := s.fraud_result.map (fun r => r.flagged)
  let fraud_flagged := fraud_flagged_opt.getD false
  let steps123 : List ReasoningStep :=
    [⟨1, "REASON", "I need to analyze all agent reports and make final decision"⟩,
     ⟨2, "OBSERVE", "Received reports from " ++ toString eligible_agents.length ++ " agents"⟩,
     ⟨3, "REASON", "Analysis: Eligibility=" ++ pyBool eligibility_passed ++
       ", Codes=" ++ pyBool codes_valid ++ ", Fraud=" ++ pyOptBool fraud_flagged_opt⟩]
  if fraud_flagged then
    let reason := "Claim denied due to fraud indicators"
    let dr := executeTool env "deny_claim"
      [("claim_id", .vStr s.claim_id), ("reason", .vStr reason)]
    .ok (.DENY, reason, 95,
      ⟨"Adjudication Agent", .COMPLETED, 0, [dr.tool_usage],
        steps123 ++
          [⟨4, "ACT", "Calling deny_claim() due to fraud risk"⟩,
           ⟨5, "COMPLETE", "Adjudication completed: DENY - " ++ reason⟩],
        "🎯 Final Decision: DENY", some 95⟩)
  else if !eligibility_passed || !codes_valid then
    let issues := (if !eligibility_passed then ["eligibility"] else []) ++
      (if !codes_valid then ["invalid codes"] else [])
    let reason := "Claim denied due to: " ++ String.intercalate ", " issues
    let dr := executeTool env "deny_claim"
      [("claim_id", .vStr s.claim_id), ("reason", .vStr reason)]
    .ok (.DENY, reason, 90,
      ⟨"Adjudication Agent", .COMPLETED, 0, [dr.tool_usage],
        steps123 ++
          [⟨4, "ACT", "Calling deny_claim() due to validation failures"⟩,
           ⟨5, "COMPLETE", "Adjudication completed: DENY - " ++ reason⟩],
        "🎯 Final Decision: DENY", some 90⟩)
  else
    let reason := "All validation checks passed"
    let steps4 := steps123 ++ [⟨4, "ACT", "Calling approve_claim() - all checks passed"⟩]
    let errPre := "❌ Adjudication error: "
    match pLookup s.claim_data "claim_amount" with
    | none =>
      .error (keyErr "claim_amount",
        exceptReport "Adjudication Agent" steps4 [] errPre (keyErr "claim_amount"))
    | some v =>
      match pyFloat v with
      | .error e =>
        .error (e, exceptReport "Adjudication Agent" steps4 [] errPre e)
      | .ok amt =>
        let ar := executeTool env "approve_claim"
          [("claim_id", .vStr s.claim_id), ("amount", .vNum amt), ("reason", .vStr reason)]
        .ok (.APPROVE, reason, 88,
          ⟨"Adjudication Agent", .COMPLETED, 0, [ar.tool_usage],
            steps4 ++ [⟨5, "COMPLETE", "Adjudication completed: APPROVE - " ++ reason⟩],
            "🎯 Final Decision: APPROVE", some 88⟩)

/-- `_adjudication_agent`: on success sets the terminal fields; on an
internal exception sets `final_decision = REVIEW` and the error reasoning
(leaving `confidence_score` untouched, hence at its initial 0). -/
def adjudication_agent (env : Env) (s : ClaimState) : ClaimState :=
  match adj_body env s with
  | .ok t =>
    { s with final_decision := some t.1, reasoning := t.2.1,
             confidence_score := t.2.2.1, adjudication_completed := true,
             agent_reports := s.agent_reports ++ [t.2.2.2] }
  | .error t =>
    { s with final_decision := some .REVIEW,
             reasoning := "Error in adjudication: " ++ t.1,
             agent_reports := s.agent_reports ++ [t.2] }

/-- The fresh state `process_claim` builds. -/
def init_state (claim_data : List (String × PyVal)) (claim_id : String) : ClaimState :=
  { claim_id := claim_id, claim_data := claim_data }

/-- One workflow run: the stage graph executed in the specification's
canonical order (Intake; then the three independent stages; then
Adjudication). -/
def run_workflow (env : Env) (claim_data : List (String × PyVal)) (claim_id : String) :
    ClaimState :=
  adjudication_agent env (fraud_agent env (clinical_agent env
    (eligibility_agent env (intake_agent env (init_state claim_data claim_id)))))

/-- `_fallback_processing`: the synthetic terminal state used when no LLM
is configured or the graph run raises. -/
def fallback_processing (claim_data : List (String × PyVal)) (claim_id : String) :
    ClaimState :=
  { claim_id := claim_id, claim_data := claim_data,
    intake_completed := true, eligibility_verified := true, codes_validated := true,
    fraud_checked := true, adjudication_completed := true,
    final_decision := some .APPROVE,
    reasoning := "Processed with fallback logic - OpenAI not available",
    confidence_score := 75,
    agent_reports :=
      [⟨"Fallback Processor", .COMPLETED, 0, [],
        [⟨1, "REASON", "OpenAI unavailable, using rule-based fallback"⟩,
         ⟨2, "COMPLETE", "Basic validation checks passed"⟩],
        "✅ Basic validation completed", some 75⟩] }

/-- `process_claim`: fallback when no LLM is configured (`hasLLM = false`)
or the graph execution raises (`infraFail = true`); otherwise the
workflow run. -/
def process_claim (hasLLM infraFail : Bool) (env : Env)
    (claim_data : List (String × PyVal)) (claim_id : String) : ClaimState :=
  if !hasLLM then fallback_processing claim_data claim_id
  else if infraFail then fallback_processing claim_data claim_id
  else run_workflow env claim_data claim_id

/-! ## Concrete runs

A deterministic environment with an empty claims store and an unknown
claim id for the fraud-scoring service, plus concrete claim submissions
taken from the repository's demo scenarios. -/

/-- Environment: no stored claims, fraud service knows no claim id. -/
def env0 : Env := ⟨[], fun _ => none, 0, "2025-10-01T00:00:00"⟩

/-- The demo happy-path submission (scenario 1 of demo_scenarios.py). -/
def demoClaimData : List (String × PyVal) :=
  [("patient_name", .vStr "John Doe"), ("patient_id", .vStr "PAT-001"),
   ("insurance_provider", .vStr "Blue Cross Blue Shield"),
   ("policy_number", .vStr "POL-12345"),
   ("diagnosis_code", .vStr "Z00.00"), ("procedure_code", .vStr "99213"),
   ("claim_amount", .vNum 150), ("service_date", .vStr "2025-09-30"),
   ("provider_name", .vStr "Dr. Sarah Johnson"), ("provider_npi", .vStr "1234567890")]

/-- The happy-path submission with a negative claim amount. -/
def negAmountData : List (String × PyVal) :=
  [("patient_name", .vStr "John Doe"), ("patient_id", .vStr "PAT-001"),
   ("insurance_provider", .vStr "Blue Cross Blue Shield"),
   ("policy_number", .vStr "POL-12345"),
   ("diagnosis_code", .vStr "Z00.00"), ("procedure_code", .vStr "99213"),
   ("claim_amount", .vNum (-50)), ("service_date", .vStr "2025-09-30"),
   ("provider_name", .vStr "Dr. Sarah Johnson"), ("provider_npi", .vStr "1234567890")]

/-- A submission with a non-numeric claim amount: the one class of input
on which the Intake validation truly fails (`claim_amount <= 0` raises
`TypeError`, producing an `ERROR:` result with no `VALID` substring). -/
def strAmountData : List (String × PyVal) :=
  [("patient_name", .vStr "John Doe"), ("patient_id", .vStr "PAT-001"),
   ("insurance_provider", .vStr "Blue Cross Blue Shield"),
   ("policy_number", .vStr "POL-12345"),
   ("diagnosis_code", .vStr "Z00.00"), ("procedure_code", .vStr "99213"),
   ("claim_amount", .vStr "abc"), ("service_date", .vStr "2025-09-30"),
   ("provider_name", .vStr "Dr. Sarah Johnson"), ("provider_npi", .vStr "1234567890")]

/-- Demo scenario 4: fracture diagnosis with an eye-exam procedure (the
diagnosis/procedure mismatch the demo expects to be denied). -/
def mismatchData : List (String × PyVal) :=
  [("patient_name", .vStr "Charlie Davis"), ("patient_id", .vStr "PAT-005"),
   ("insurance_provider", .vStr "Kaiser Permanente"),
   ("policy_number", .vStr "POL-11111"),
   ("diagnosis_code", .vStr "S52.501A"), ("procedure_code", .vStr "92004"),
   ("claim_amount", .vNum 250), ("service_date", .vStr "2025-09-30"),
   ("provider_name", .vStr "Dr. Lisa White"), ("provider_npi", .vStr "7777777777")]

/-- The happy-path submission with the expired-coverage policy number. -/
def pol99999Data : List (String × PyVal) :=
  [("patient_name", .vStr "John Doe"), ("patient_id", .vStr "PAT-001"),
   ("insurance_provider", .vStr "Blue Cross Blue Shield"),
   ("policy_number", .vStr "POL-99999"),
   ("diagnosis_code", .vStr "Z00.00"), ("procedure_code", .vStr "99213"),
   ("claim_amount", .vNum 150), ("service_date", .vStr "2025-09-30"),
   ("provider_name", .vStr "Dr. Sarah Johnson"), ("provider_npi", .vStr "1234567890")]

/-- The happy-path submission without a `claim_amount` entry. -/
def noAmountData : List (String × PyVal) :=
  [("patient_name", .vStr "John Doe"), ("patient_id", .vStr "PAT-001"),
   ("insurance_provider", .vStr "Blue Cross Blue Shield"),
   ("policy_number", .vStr "POL-12345"),
   ("diagnosis_code", .vStr "Z00.00"), ("procedure_code", .vStr "99213"),
   ("service_date", .vStr "2025-09-30"),
   ("provider_name", .vStr "Dr. Sarah Johnson"), ("provider_npi", .vStr "1234567890")]

/-- C1: the claim says that for a missing/empty required field or a
non-positive amount, Intake leaves `intake_completed = false` with a
FAILED report (confidence 10) and the dependent stages short-circuit.
The code instead tests `"VALID" in result`, and `"VALID"` is a substring
of the tool's `"INVALID: …"` sentinels, so on `claim_amount = -50` the
validation tool reports INVALID yet Intake sets `intake_completed = true`
with a COMPLETED report at confidence 95, and the Eligibility stage then
runs and performs its tool invocations. -/
theorem C1_intake_accepts_invalid_claims :
    validate_required_fields negAmountData =
      "INVALID: Claim amount must be greater than zero" ∧
    (intake_agent env0 (init_state negAmountData "CLM-C1")).intake_completed = true ∧
    (intake_agent env0 (init_state negAmountData "CLM-C1")).agent_reports.map
      (fun r => (r.status, r.confidence_score)) = [(.COMPLETED, some 95)] ∧
    (eligibility_agent env0 (intake_agent env0 (init_state negAmountData "CLM-C1"))).agent_reports.map
      (fun r => (r.agent_name, r.status, r.tools_used.length)) =
      [("Intake Agent", .COMPLETED, 2), ("Eligibility Agent", .COMPLETED, 2)] :=
  ⟨rfl, rfl, rfl, rfl⟩

/-- C2: the claim says each entered stage appends exactly one report
(5 reports on full success, 4 when Intake fails).  On an input whose
Intake genuinely fails, each short-circuited dependent stage appends its
FAILED report twice — the early `return` appends it and the `finally`
block appends the same object again — and Adjudication still runs and
appends its own report, so the list has 8 entries, not 4.  The
full-success path does produce 5. -/
theorem C2_report_count_diverges :
    (run_workflow env0 strAmountData "CLM-C2").agent_reports.map
      (fun r => (r.agent_name, r.status)) =
      [("Intake Agent", .FAILED),
       ("Eligibility Agent", .FAILED), ("Eligibility Agent", .FAILED),
       ("Clinical Review Agent", .FAILED), ("Clinical Review Agent", .FAILED),
       ("Fraud Detection Agent", .FAILED), ("Fraud Detection Agent", .FAILED),
       ("Adjudication Agent", .COMPLETED)] ∧
    (run_workflow env0 strAmountData "CLM-C2").agent_reports.length = 8 ∧
    (run_workflow env0 demoClaimData "CLM-OK").agent_reports.length = 5 :=
  ⟨rfl, rfl, rfl⟩

/-- C3: the claim says `codes_validated` is true iff all three tool
results indicate valid/compatible, and that the mismatched pair
S52.501A/92004 leaves it false with an `invalid` clinical result and a
DENY (confidence 90).  The code tests `"COMPATIBLE" in result`, and
`"COMPATIBLE"` is a substring of `"INCOMPATIBLE: …"`, so the mismatch
yields `codes_validated = true`, a `valid` clinical result carrying the
INCOMPATIBLE text, and the run is APPROVEd at confidence 88. -/
theorem C3_incompatible_codes_validated :
    check_code_compatibility "S52.501A" "92004" =
      "INCOMPATIBLE: Procedure 92004 does not match diagnosis S52.501A" ∧
    (run_workflow env0 mismatchData "CLM-C3").codes_validated = true ∧
    (run_workflow env0 mismatchData "CLM-C3").clinical_result = some
      (.valid "VALID: S52.501A - Unspecified fracture of the lower end of right radius, initial encounter"
        "VALID: 92004 - Ophthalmological examination and evaluation"
        "INCOMPATIBLE: Procedure 92004 does not match diagnosis S52.501A") ∧
    (run_workflow env0 mismatchData "CLM-C3").final_decision = some .APPROVE ∧
    (run_workflow env0 mismatchData "CLM-C3").confidence_score = 88 :=
  ⟨rfl, rfl, rfl, rfl, rfl⟩

/-- C4: the claim says an ineligible tool result (expired coverage) leaves
`eligibility_verified = false`, records `{status: ineligible}` and
confidence 30.  The code tests `"ELIGIBLE" in result`, and `"ELIGIBLE"`
is a substring of `"INELIGIBLE: …"`, so policy POL-99999 (coverage
expired) yields `eligibility_verified = true` with
`{status: "eligible"}` wrapping the INELIGIBLE detail text and
confidence 90. -/
theorem C4_ineligible_marked_eligible :
    call_eligibility_api "POL-99999" "Blue Cross Blue Shield" =
      "INELIGIBLE: Coverage expired on 2025-09-30" ∧
    (eligibility_agent env0
      { init_state pol99999Data "CLM-C4" with intake_completed := true }).eligibility_verified
      = true ∧
    (eligibility_agent env0
      { init_state pol99999Data "CLM-C4" with intake_completed := true }).eligibility_result
      = some ⟨"eligible", "INELIGIBLE: Coverage expired on 2025-09-30"⟩ ∧
    (eligibility_agent env0
      { init_state pol99999Data "CLM-C4" with intake_completed := true }).agent_reports.map
      (fun r => (r.status, r.confidence_score)) = [(.COMPLETED, some 90)] :=
  ⟨rfl, rfl, rfl, rfl⟩

/-- C8: a tool invocation made by a stage never propagates an exception:
an unregistered tool name or a raising tool is converted by
`_execute_tool` into a `ToolUsage` with `success = false` and an error
description, and the (total) invocation returns normally so the stage
proceeds. -/
theorem C8_tool_failure_contained (env : Env) (name : String)
    (params : List (String × PyVal)) :
    (invokeTool env name params = none →
      executeTool env name params =
        ⟨"ERROR: Tool " ++ name ++ " not found", ⟨name, params, "Tool not found", false⟩⟩) ∧
    (∀ e, invokeTool env name params = some (.error e) →
      executeTool env name params =
        ⟨"ERROR: " ++ e, ⟨name, params, "Error: " ++ e, false⟩⟩) := by
  constructor
  · intro h
    unfold executeTool
    rw [h]
  · intro e h
    unfold executeTool
    rw [h]

/-- C8 witness: an unregistered tool name and a registered tool invoked
with malformed (missing) parameters are both recorded as failed
tool-usage entries rather than raising. -/
theorem C8_witness :
    invokeTool env0 "bogus_tool" [] = none ∧
    invokeTool env0 "call_eligibility_api" [] =
      some (.error "missing required argument policy_number") ∧
    executeTool env0 "bogus_tool" [] =
      ⟨"ERROR: Tool bogus_tool not found", ⟨"bogus_tool", [], "Tool not found", false⟩⟩ ∧
    executeTool env0 "call_eligibility_api" [] =
      ⟨"ERROR: missing required argument policy_number",
       ⟨"call_eligibility_api", [], "Error: missing required argument policy_number",
        false⟩⟩ := by
  refine ⟨rfl, rfl, ?_, ?_⟩
  · exact (C8_tool_failure_contained env0 "bogus_tool" []).1 rfl
  · exact (C8_tool_failure_contained env0 "call_eligibility_api" []).2
      "missing required argument policy_number" rfl

/-- C10: a `ToolUsage` record is marked `success = true` whenever the
underlying tool returns without raising — even when the returned text is
an `ERROR:` sentinel — and `success = false` arises only from an
unregistered tool name or an exception escaping the tool. -/
theorem C10_success_covers_error_sentinels (env : Env) (name : String)
    (params : List (String × PyVal)) :
    (∀ r, invokeTool env name params = some (.ok r) →
      executeTool env name params = ⟨r, ⟨name, params, r, true⟩⟩) ∧
    ((executeTool env name params).tool_usage.success = false →
      invokeTool env name params = none ∨
        ∃ e, invokeTool env name params = some (.error e)) := by
  constructor
  · intro r h
    unfold executeTool
    rw [h]
  · intro h
    cases hv : invokeTool env name params with
    | none => exact Or.inl rfl
    | some x =>
      cases x with
      | ok r =>
        exfalso
        unfold executeTool at h
        rw [hv] at h
        simp at h
      | error e => exact Or.inr ⟨e, rfl⟩

/-- C10 witness: `call_eligibility_api` on a malformed policy number
returns the sentinel `"ERROR: Invalid policy number format"` as a normal
value, and `_execute_tool` records the invocation with
`success = true`. -/
theorem C10_witness :
    invokeTool env0 "call_eligibility_api"
      [("policy_number", .vStr "BAD-001"), ("insurance_provider", .vStr "TestCo")] =
      some (.ok "ERROR: Invalid policy number format") ∧
    (executeTool env0 "call_eligibility_api"
      [("policy_number", .vStr "BAD-001"), ("insurance_provider", .vStr "TestCo")]).tool_usage.success
      = true ∧
    (executeTool env0 "call_eligibility_api"
      [("policy_number", .vStr "BAD-001"), ("insurance_provider", .vStr "TestCo")]).result
      = "ERROR: Invalid policy number format" := by
  have h := (C10_success_covers_error_sentinels env0 "call_eligibility_api"
    [("policy_number", .vStr "BAD-001"), ("insurance_provider", .vStr "TestCo")]).1
    "ERROR: Invalid policy number format" rfl
  refine ⟨rfl, ?_, ?_⟩
  · rw [h]
  · rw [h]

/-- C7: with no LLM configured, or when the graph execution raises,
`process_claim` returns the fallback terminal state without running any
stage: all five flags true, exactly one synthetic report, decision
APPROVE, confidence 75, and fallback reasoning text. -/
theorem C7_fallback_terminal_state (hasLLM infraFail : Bool) (env : Env)
    (claim_data : List (String × PyVal)) (claim_id : String)
    (h : hasLLM = false ∨ infraFail = true) :
    process_claim hasLLM infraFail env claim_data claim_id =
      fallback_processing claim_data claim_id ∧
    (fallback_processing claim_data claim_id).intake_completed = true ∧
    (fallback_processing claim_data claim_id).eligibility_verified = true ∧
    (fallback_processing claim_data claim_id).codes_validated = true ∧
    (fallback_processing claim_data claim_id).fraud_checked = true ∧
    (fallback_processing claim_data claim_id).adjudication_completed = true ∧
    (fallback_processing claim_data claim_id).final_decision = some .APPROVE ∧
    (fallback_processing claim_data claim_id).confidence_score = 75 ∧
    (fallback_processing claim_data claim_id).reasoning =
      "Processed with fallback logic - OpenAI not available" ∧
    (fallback_processing claim_data claim_id).agent_reports.map
      (fun r => (r.agent_name, r.status, r.confidence_score)) =
      [("Fallback Processor", .COMPLETED, some 75)] := by
  refine ⟨?_, rfl, rfl, rfl, rfl, rfl, rfl, rfl, rfl, rfl⟩
  cases h with
  | inl h1 => subst h1; rfl
  | inr h1 => subst h1; cases hasLLM <;> rfl

/-- C7 witness: the fallback at a concrete submission with no LLM
configured. -/
theorem C7_witness :
    process_claim false false env0 demoClaimData "CLM-FB" =
      fallback_processing demoClaimData "CLM-FB" ∧
    (process_claim false false env0 demoClaimData "CLM-FB").final_decision =
      some .APPROVE ∧
    (process_claim false false env0 demoClaimData "CLM-FB").confidence_score = 75 ∧
    (process_claim false false env0 demoClaimData "CLM-FB").agent_reports.length = 1 := by
  have h := C7_fallback_terminal_state false false env0 demoClaimData "CLM-FB" (Or.inl rfl)
  refine ⟨h.1, ?_, ?_, ?_⟩
  · rw [h.1]
    rfl
  · rw [h.1]
    rfl
  · rw [h.1]
    rfl

/-- C5: the adjudication policy in strict priority order, first match
winning: fraud-flagged → DENY at confidence 95 with the fraud reason
(which mentions fraud and not eligibility, so a state that is both
fraud-flagged and ineligible resolves via the fraud branch); else a
failed eligibility or invalid codes → DENY at 90 listing the failed
checks; else APPROVE at 88 with "All validation checks passed". -/
theorem C5_adjudication_policy (env : Env) (s : ClaimState) :
    ((s.fraud_result.map (fun r => r.flagged)).getD false = true →
      (adjudication_agent env s).final_decision = some .DENY ∧
      (adjudication_agent env s).confidence_score = 95 ∧
      (adjudication_agent env s).reasoning = "Claim denied due to fraud indicators" ∧
      occursIn "fraud" (adjudication_agent env s).reasoning = true ∧
      occursIn "eligibility" (adjudication_agent env s).reasoning = false) ∧
    ((s.fraud_result.map (fun r => r.flagged)).getD false = false →
      (s.eligibility_verified = false ∨ s.codes_validated = false) →
      (adjudication_agent env s).final_decision = some .DENY ∧
      (adjudication_agent env s).confidence_score = 90 ∧
      (adjudication_agent env s).reasoning = "Claim denied due to: " ++
        String.intercalate ", "
          ((if !s.eligibility_verified then ["eligibility"] else []) ++
           (if !s.codes_validated then ["invalid codes"] else []))) ∧
    ((s.fraud_result.map (fun r => r.flagged)).getD false = false →
      s.eligibility_verified = true → s.codes_validated = true →
      ∀ v a, pLookup s.claim_data "claim_amount" = some v → pyFloat v = .ok a →
      (adjudication_agent env s).final_decision = some .APPROVE ∧
      (adjudication_agent env s).confidence_score = 88 ∧
      (adjudication_agent env s).reasoning = "All validation checks passed") := by
  refine ⟨?_, ?_, ?_⟩
  · intro hf
    unfold adjudication_agent adj_body
    simp only [hf]
    simp [occursIn, subScan, leadsWith]
  · intro hf hd
    unfold adjudication_agent adj_body
    rcases hd with h1 | h1 <;> simp [hf, h1]
  · intro hf he hc v a hv ha
    unfold adjudication_agent adj_body
    simp [hf, he, hc, hv, ha]

/-- C5 witness: a state that is both fraud-flagged and ineligible is
denied via the fraud branch at confidence 95, with a reason mentioning
fraud and not eligibility. -/
theorem C5_witness :
    (adjudication_agent env0
      { init_state demoClaimData "CLM-C5" with
        fraud_result := some ⟨"HIGH", "d", "q", true⟩ }).final_decision = some .DENY ∧
    (adjudication_agent env0
      { init_state demoClaimData "CLM-C5" with
        fraud_result := some ⟨"HIGH", "d", "q", true⟩ }).confidence_score = 95 ∧
    (init_state demoClaimData "CLM-C5").eligibility_verified = false ∧
    occursIn "eligibility" (adjudication_agent env0
      { init_state demoClaimData "CLM-C5" with
        fraud_result := some ⟨"HIGH", "d", "q", true⟩ }).reasoning = false := by
  have h := (C5_adjudication_policy env0
    { init_state demoClaimData "CLM-C5" with
      fraud_result := some ⟨"HIGH", "d", "q", true⟩ }).1 rfl
  exact ⟨h.1, h.2.1, rfl, h.2.2.2.2⟩

/-- Every branch of `_execute_tool` stamps the invoked tool's name into
the `ToolUsage` record. -/
theorem executeTool_name (env : Env) (name : String) (params : List (String × PyVal)) :
    (executeTool env name params).tool_usage.tool_name = name := by
  unfold executeTool
  cases invokeTool env name params with
  | none => rfl
  | some x => cases x <;> rfl

/-- C6: when the Fraud stage runs with `intake_completed = true` and the
three claim-data keys it reads are present (so no internal exception
occurs), risk is HIGH exactly when the fraud-score result contains
`"HIGH"` or the history query contains `"DUPLICATE_FOUND"`;
`fraud_checked` is always set and `fraud_result` records
`{risk_level, details, query_result, flagged}`; the stage report is
COMPLETED at confidence 95 when flagged and 85 when clear, and the
flag-for-investigation tool is invoked exactly in the flagged case. -/
theorem C6_fraud_stage_decision (env : Env) (s : ClaimState) (pid pc sd : PyVal)
    (hint : s.intake_completed = true)
    (hpid : pLookup s.claim_data "patient_id" = some pid)
    (hpc : pLookup s.claim_data "procedure_code" = some pc)
    (hsd : pLookup s.claim_data "service_date" = some sd) :
    let q := executeTool env "query_claims_database"
      [("patient_id", pid), ("procedure_code", pc), ("service_date", .vStr (pyStr sd))]
    let f := executeTool env "calculate_fraud_score" [("claim_id", .vStr s.claim_id)]
    let hi := occursIn "HIGH" f.result || occursIn "DUPLICATE_FOUND" q.result
    (fraud_agent env s).fraud_checked = true ∧
    (fraud_agent env s).fraud_result =
      some ⟨if hi then "HIGH" else "LOW", f.result, q.result, hi⟩ ∧
    ∃ r, (fraud_agent env s).agent_reports = s.agent_reports ++ [r] ∧
      r.status = .COMPLETED ∧
      r.confidence_score = some (if hi then (95 : Rat) else 85) ∧
      r.tools_used.map (fun u => u.tool_name) =
        ["query_claims_database", "calculate_fraud_score"] ++
          (if hi then ["flag_for_investigation"] else []) := by
  intro q f hi
  cases hb : hi with
  | false =>
    unfold fraud_agent fraud_core
    rw [hint]
    simp only [Bool.not_true, Bool.false_eq_true, if_false]
    rw [hpid, hpc, hsd]
    simp only []
    rw [show (occursIn "HIGH" f.result || occursIn "DUPLICATE_FOUND" q.result) = false
      from hb]
    exact ⟨rfl, rfl, _, rfl, rfl, rfl, by simp [executeTool_name]⟩
  | true =>
    unfold fraud_agent fraud_core
    rw [hint]
    simp only [Bool.not_true, Bool.false_eq_true, if_false]
    rw [hpid, hpc, hsd]
    simp only []
    rw [show (occursIn "HIGH" f.result || occursIn "DUPLICATE_FOUND" q.result) = true
      from hb]
    exact ⟨rfl, rfl, _, rfl, rfl, rfl, by simp [executeTool_name]⟩

/-- C6 witness: a clear (low-risk) concrete run — no stored history, the
fraud service does not know the claim — completes at confidence 85
without a flag-for-investigation invocation. -/
theorem C6_witness :
    (fraud_agent env0 { init_state demoClaimData "CLM-C6" with intake_completed := true }).fraud_checked = true ∧
    (fraud_agent env0 { init_state demoClaimData "CLM-C6" with intake_completed := true }).fraud_result =
      some ⟨"LOW", "ERROR: Claim not found",
        "NO_HISTORY: No previous claims found for patient PAT-001", false⟩ ∧
    (fraud_agent env0 { init_state demoClaimData "CLM-C6" with intake_completed := true }).agent_reports.map
      (fun r => (r.status, r.confidence_score, r.tools_used.map (fun u => u.tool_name))) =
      [(.COMPLETED, some (85 : Rat), ["query_claims_database", "calculate_fraud_score"])] := by
  have h := C6_fraud_stage_decision env0
    { init_state demoClaimData "CLM-C6" with intake_completed := true }
    (.vStr "PAT-001") (.vStr "99213") (.vStr "2025-09-30") rfl rfl rfl rfl
  exact ⟨h.1, h.2.1, rfl⟩

/-- A successful adjudication body decides DENY or APPROVE, never
REVIEW. -/
theorem adj_body_ok_decision (env : Env) (s : ClaimState)
    (t : DecisionType × String × Rat × AgentReport) (h : adj_body env s = .ok t) :
    t.1 = .DENY ∨ t.1 = .APPROVE := by
  unfold adj_body at h
  simp only [] at h
  repeat' split at h
  all_goals try (injection h with h2; subst h2; simp)
  all_goals simp at h

/-- C9: every run of `process_claim` terminates with `final_decision` set
to APPROVE, DENY or REVIEW (the call is total), and REVIEW arises only
when the adjudication body raises internally, in which case the state's
confidence is 0 and the reasoning carries the adjudication error text. -/
theorem C9_review_only_on_adjudication_error (hasLLM infraFail : Bool) (env : Env)
    (claim_data : List (String × PyVal)) (claim_id : String) :
    ((process_claim hasLLM infraFail env claim_data claim_id).final_decision =
        some .APPROVE ∨
     (process_claim hasLLM infraFail env claim_data claim_id).final_decision =
        some .DENY ∨
     (process_claim hasLLM infraFail env claim_data claim_id).final_decision =
        some .REVIEW) ∧
    ((process_claim hasLLM infraFail env claim_data claim_id).final_decision =
        some .REVIEW →
      (process_claim hasLLM infraFail env claim_data claim_id).confidence_score = 0 ∧
      (∃ e, (process_claim hasLLM infraFail env claim_data claim_id).reasoning =
        "Error in adjudication: " ++ e) ∧
      ∃ t, adj_body env (fraud_agent env (clinical_agent env (eligibility_agent env
        (intake_agent env (init_state claim_data claim_id))))) = .error t) := by
  cases hasLLM with
  | false =>
    refine ⟨Or.inl rfl, fun hrev => ?_⟩
    exact absurd hrev (by simp [process_claim, fallback_processing])
  | true =>
    cases infraFail with
    | true =>
      refine ⟨Or.inl rfl, fun hrev => ?_⟩
      exact absurd hrev (by simp [process_claim, fallback_processing])
    | false =>
      have hpc : process_claim true false env claim_data claim_id =
          adjudication_agent env (fraud_agent env (clinical_agent env
            (eligibility_agent env (intake_agent env
              (init_state claim_data claim_id))))) := rfl
      rw [hpc]
      cases hadj : adj_body env (fraud_agent env (clinical_agent env
          (eligibility_agent env (intake_agent env
            (init_state claim_data claim_id))))) with
      | ok t =>
        have hfd : (adjudication_agent env (fraud_agent env (clinical_agent env
            (eligibility_agent env (intake_agent env
              (init_state claim_data claim_id)))))).final_decision = some t.1 := by
          unfold adjudication_agent
          rw [hadj]
        have hdec := adj_body_ok_decision env _ t hadj
        constructor
        · cases hdec with
          | inl h1 => exact Or.inr (Or.inl (by rw [hfd, h1]))
          | inr h1 => exact Or.inl (by rw [hfd, h1])
        · intro hrev
          rw [hfd] at hrev
          injection hrev with h2
          cases hdec with
          | inl h1 => rw [h1] at h2; cases h2
          | inr h1 => rw [h1] at h2; cases h2
      | error t =>
        have hfd : (adjudication_agent env (fraud_agent env (clinical_agent env
            (eligibility_agent env (intake_agent env
              (init_state claim_data claim_id)))))).final_decision = some .REVIEW := by
          unfold adjudication_agent
          rw [hadj]
        refine ⟨Or.inr (Or.inr hfd), fun _ => ⟨?_, ⟨t.1, ?_⟩, ⟨t, rfl⟩⟩⟩
        · have hcs : (adjudication_agent env (fraud_agent env (clinical_agent env
              (eligibility_agent env (intake_agent env
                (init_state claim_data claim_id)))))).confidence_score =
              (fraud_agent env (clinical_agent env (eligibility_agent env
                (intake_agent env (init_state claim_data claim_id))))).confidence_score := by
            unfold adjudication_agent
            rw [hadj]
          rw [hcs]
          rfl
        · unfold adjudication_agent
          rw [hadj]

/-- C9 witness: a submission whose only defect is an absent
`claim_amount` reaches the adjudication approval branch (all other checks
pass) where `float(claim_data["claim_amount"])` raises `KeyError` — the
run ends REVIEW with confidence 0 and the error reasoning. -/
theorem C9_witness :
    (process_claim true false env0 noAmountData "CLM-C9").final_decision =
      some .REVIEW ∧
    (process_claim true false env0 noAmountData "CLM-C9").confidence_score = 0 ∧
    (process_claim true false env0 noAmountData "CLM-C9").reasoning =
      "Error in adjudication: \x27claim_amount\x27" := by
  have h := C9_review_only_on_adjudication_error true false env0 noAmountData "CLM-C9"
  have hrev : (process_claim true false env0 noAmountData "CLM-C9").final_decision =
      some .REVIEW := rfl
  exact ⟨hrev, (h.2 hrev).1, rfl⟩

end Flowgenix
